import Mathlib

/-!
Shallow embedding of the Syllabus Management client
(`src/syllabus_management_app.py`): the HTTP-facing functions
`login_user`, `get_all_chapters`, `get_chapter_details`, `update_chapter`,
`get_mcqs_for_chapter`, `create_test_mcqs`, `update_mcq`, the request
shapes they issue, the direct-token session path of `main`, and the
`text_to_list` form helper.

JSON values are modelled by an inductive type; the remote server is
modelled by an oracle value of type `HttpOutcome` giving either a raised
transport exception or a response with a status code and a body that
either parses as JSON or raises on `response.json()`.  Each client
function is split into a `_body` (the code inside `try:`, where any
Python exception is an `Except.error`) and the function itself, which
wraps the body in the `except Exception` handler exactly as the source
does.  The outer type keeps the `Except` channel so that the absence of
escaping exceptions is a theorem rather than a typing convention.
-/

namespace Syllabus

/-- A JSON value as produced by `response.json()` in Python. -/
inductive JsonVal where
  | null : JsonVal
  | bool (b : Bool) : JsonVal
  | num (n : Int) : JsonVal
  | str (s : String) : JsonVal
  | arr (xs : List JsonVal) : JsonVal
  | obj (fields : List (String × JsonVal)) : JsonVal

/-- First binding of a key in a Python dict, modelled as an association list. -/
def lookupField : List (String × JsonVal) → String → Option JsonVal
  | [], _ => none
  | (k, v) :: rest, key => if k = key then some v else lookupField rest key

/-- Python truthiness of a JSON value, as tested by `if data.get("succeeded"):`. -/
def truthy : JsonVal → Bool
  | .null => false
  | .bool b => b
  | .num n => n != 0
  | .str s => s != ""
  | .arr xs => !xs.isEmpty
  | .obj fields => !fields.isEmpty

/-- Python `str()` of a JSON value, used when a value is interpolated into an
error message.  Rendering of containers is abbreviated; no theorem below
depends on the rendering, only on the non-emptiness of the surrounding
message. -/
def pyStr : JsonVal → String
  | .null => "None"
  | .bool true => "True"
  | .bool false => "False"
  | .num n => toString n
  | .str s => s
  | .arr xs => "<list of " ++ toString xs.length ++ " items>"
  | .obj fields => "<dict of " ++ toString fields.length ++ " items>"

/-- Python `data.get(key)`: `None` when the key is absent, raises
`AttributeError` when the receiver is not a dict. -/
def pyGetOpt (j : JsonVal) (key : String) : Except String JsonVal :=
  match j with
  | .obj fields => .ok ((lookupField fields key).getD .null)
  | _ => .error ("AttributeError: object has no attribute get for key " ++ key)

/-- Python `data.get(key, default)`: the default when the key is absent,
raises `AttributeError` when the receiver is not a dict. -/
def pyGetD (j : JsonVal) (key : String) (dflt : JsonVal) : Except String JsonVal :=
  match j with
  | .obj fields => .ok ((lookupField fields key).getD dflt)
  | _ => .error ("AttributeError: object has no attribute get for key " ++ key)

/-- Python `data[key]` subscription: raises `KeyError` when the key is absent
and `TypeError` when the receiver is not a dict. -/
def pyIndex (j : JsonVal) (key : String) : Except String JsonVal :=
  match j with
  | .obj fields =>
    match lookupField fields key with
    | some v => .ok v
    | none => .error ("KeyError: " ++ key)
  | _ => .error ("TypeError: value not subscriptable by key " ++ key)

/-- The outcome of one HTTP request issued through `requests`:
either the call raises (timeout, connection error, ...), or a response
arrives with a status code and a body; `Except.error` in the body position
means `response.json()` raises a decode error with that message. -/
inductive HttpOutcome where
  | netError (msg : String) : HttpOutcome
  | response (status : Nat) (body : Except String JsonVal) : HttpOutcome

/-- Constant `API_BASE_URL` from the configuration section of the source. -/
def API_BASE_URL : String := "https://api.nlpbusiness.site"

/-- The observable shape of one outbound HTTP request: method, URL, bearer
header if any, JSON body if any, and the `timeout=` argument if one is
passed to `requests`. -/
structure Request where
  method : String
  url : String
  authHeader : Option String
  jsonBody : Option JsonVal
  timeout : Option Nat

/-- The request issued by `login_user`: POST to `/api/login` with the
credentials as JSON body and `timeout=10`. -/
def login_request (email password : String) : Request :=
  { method := "POST"
    url := API_BASE_URL ++ "/api/login"
    authHeader := none
    jsonBody := some (.obj [("email", .str email), ("password", .str password)])
    timeout := some 10 }

/-- The request issued by `get_all_chapters`: GET `/api/all-chapters` with a
bearer header and no `timeout=` argument. -/
def all_chapters_request (token : String) : Request :=
  { method := "GET"
    url := API_BASE_URL ++ "/api/all-chapters"
    authHeader := some ("Bearer " ++ token)
    jsonBody := none
    timeout := none }

/-- The request issued by `get_chapter_details`: GET `/api/syllabus/<id>`
with a bearer header and no `timeout=` argument. -/
def chapter_details_request (chapter_id : Int) (token : String) : Request :=
  { method := "GET"
    url := API_BASE_URL ++ "/api/syllabus/" ++ toString chapter_id
    authHeader := some ("Bearer " ++ token)
    jsonBody := none
    timeout := none }

/-- The request issued by `update_chapter`: PUT `/api/syllabus/<id>` with the
chapter payload as JSON body and no `timeout=` argument. -/
def update_chapter_request (chapter_id : Int) (chapter_data : JsonVal) (token : String) : Request :=
  { method := "PUT"
    url := API_BASE_URL ++ "/api/syllabus/" ++ toString chapter_id
    authHeader := some ("Bearer " ++ token)
    jsonBody := some chapter_data
    timeout := none }

/-- The request issued by `get_mcqs_for_chapter`: GET `/api/mcqs/<id>` with a
bearer header and no `timeout=` argument. -/
def mcqs_get_request (chapter_id : Int) (token : String) : Request :=
  { method := "GET"
    url := API_BASE_URL ++ "/api/mcqs/" ++ toString chapter_id
    authHeader := some ("Bearer " ++ token)
    jsonBody := none
    timeout := none }

/-- The PUT request shape shared by `create_test_mcqs` and `update_mcq`:
PUT `/api/mcqs/<id>` whose JSON body is exactly the list of MCQ records, in
order, with a bearer header and no `timeout=` argument. -/
def mcqs_put_request (chapter_id : Int) (records : List JsonVal) (token : String) : Request :=
  { method := "PUT"
    url := API_BASE_URL ++ "/api/mcqs/" ++ toString chapter_id
    authHeader := some ("Bearer " ++ token)
    jsonBody := some (.arr records)
    timeout := none }

/-- The body of `login_user` inside `try:`.  On HTTP 200 it parses the body,
tests `data.get("succeeded")` for truthiness and on success subscripts
`data["data"]["token"]`, `["username"]`, `["user_role"]` in order; otherwise
it emits an `st.error` message and returns the `None` triple.  The second
component of the result collects the `st.error` messages emitted. -/
def login_user_body (o : HttpOutcome) :
    Except String (Option (JsonVal × JsonVal × JsonVal) × List String) :=
  match o with
  | .netError msg => .error msg
  | .response status body =>
    if status = 200 then
      match body with
      | .error e => .error e
      | .ok data =>
        match pyGetOpt data "succeeded" with
        | .error e => .error e
        | .ok s =>
          if truthy s then
            match pyIndex data "data" with
            | .error e => .error e
            | .ok d =>
              match pyIndex d "token" with
              | .error e => .error e
              | .ok t =>
                match pyIndex d "username" with
                | .error e => .error e
                | .ok u =>
                  match pyIndex d "user_role" with
                  | .error e => .error e
                  | .ok r => .ok (some (t, u, r), [])
          else
            match pyGetD data "message" (.str "Unknown error") with
            | .error e => .error e
            | .ok m => .ok (none, ["Login failed: " ++ pyStr m])
    else
      .ok (none, ["Login failed with status " ++ toString status])

/-- Function `login_user` with its `except Exception` handler: an exception raised in
the body becomes the `st.error` message `Login error: ...` and the `None`
triple.  The outer `Except` channel records whether an exception escapes. -/
def login_user (o : HttpOutcome) :
    Except String (Option (JsonVal × JsonVal × JsonVal) × List String) :=
  match login_user_body o with
  | .ok v => .ok v
  | .error e => .ok (none, ["Login error: " ++ e])

/-- The body of `get_all_chapters` inside `try:`: on HTTP 200 with a truthy
`succeeded` it returns `data["data"]` as is; every other path returns the
empty Python list. -/
def get_all_chapters_body (o : HttpOutcome) : Except String (JsonVal × List String) :=
  match o with
  | .netError msg => .error msg
  | .response status body =>
    if status = 200 then
      match body with
      | .error e => .error e
      | .ok data =>
        match pyGetOpt data "succeeded" with
        | .error e => .error e
        | .ok s =>
          if truthy s then
            match pyIndex data "data" with
            | .error e => .error e
            | .ok d => .ok (d, [])
          else
            .ok (.arr [], [])
    else
      .ok (.arr [], [])

/-- Function `get_all_chapters` with its `except Exception` handler: an exception
becomes an `st.error` message and the empty list. -/
def get_all_chapters (o : HttpOutcome) : Except String (JsonVal × List String) :=
  match get_all_chapters_body o with
  | .ok v => .ok v
  | .error e => .ok (.arr [], ["Error fetching chapters: " ++ e])

/-- The body of `get_chapter_details` inside `try:`: on HTTP 200 with a
truthy `succeeded` it returns `data["data"]`; every other path returns
`None`. -/
def get_chapter_details_body (o : HttpOutcome) : Except String (Option JsonVal × List String) :=
  match o with
  | .netError msg => .error msg
  | .response status body =>
    if status = 200 then
      match body with
      | .error e => .error e
      | .ok data =>
        match pyGetOpt data "succeeded" with
        | .error e => .error e
        | .ok s =>
          if truthy s then
            match pyIndex data "data" with
            | .error e => .error e
            | .ok d => .ok (some d, [])
          else
            .ok (none, [])
    else
      .ok (none, [])

/-- Function `get_chapter_details` with its `except Exception` handler. -/
def get_chapter_details (o : HttpOutcome) : Except String (Option JsonVal × List String) :=
  match get_chapter_details_body o with
  | .ok v => .ok v
  | .error e => .ok (none, ["Error fetching chapter details: " ++ e])

/-- The body of `update_chapter` inside `try:`: on HTTP 200 or 201 with a
truthy `succeeded` it returns `(True, data["message"])`, where the
subscription raises `KeyError` when the key is missing; every other path
falls through to `(False, "Update failed")`. -/
def update_chapter_body (o : HttpOutcome) : Except String (Bool × JsonVal) :=
  match o with
  | .netError msg => .error msg
  | .response status body =>
    if status = 200 ∨ status = 201 then
      match body with
      | .error e => .error e
      | .ok data =>
        match pyGetOpt data "succeeded" with
        | .error e => .error e
        | .ok s =>
          if truthy s then
            match pyIndex data "message" with
            | .error e => .error e
            | .ok m => .ok (true, m)
          else
            .ok (false, .str "Update failed")
    else
      .ok (false, .str "Update failed")

/-- Function `update_chapter` with its `except Exception` handler: an exception
becomes `(False, "Error: ...")`. -/
def update_chapter (o : HttpOutcome) : Except String (Bool × JsonVal) :=
  match update_chapter_body o with
  | .ok v => .ok v
  | .error e => .ok (false, .str ("Error: " ++ e))

/-- The body of `get_mcqs_for_chapter` inside `try:`: same shape as
`get_all_chapters`. -/
def get_mcqs_for_chapter_body (o : HttpOutcome) : Except String (JsonVal × List String) :=
  match o with
  | .netError msg => .error msg
  | .response status body =>
    if status = 200 then
      match body with
      | .error e => .error e
      | .ok data =>
        match pyGetOpt data "succeeded" with
        | .error e => .error e
        | .ok s =>
          if truthy s then
            match pyIndex data "data" with
            | .error e => .error e
            | .ok d => .ok (d, [])
          else
            .ok (.arr [], [])
    else
      .ok (.arr [], [])

/-- Function `get_mcqs_for_chapter` with its `except Exception` handler. -/
def get_mcqs_for_chapter (o : HttpOutcome) : Except String (JsonVal × List String) :=
  match get_mcqs_for_chapter_body o with
  | .ok v => .ok v
  | .error e => .ok (.arr [], ["Error fetching MCQs: " ++ e])

/-- The fixed two test MCQ records built by `create_test_mcqs`, in source
order; neither record carries an `id` key. -/
def test_mcqs (chapter_id : Int) : List JsonVal :=
  [ .obj
      [ ("question", .str ("What is the main topic of Chapter " ++ toString chapter_id ++ "?"))
      , ("options", .arr
          [ .str "Introduction to the subject"
          , .str "Advanced concepts"
          , .str "Practical applications"
          , .str "Summary and conclusion" ])
      , ("correct_answer", .str "Introduction to the subject")
      , ("explanation", .str "This is a test MCQ created for demonstration purposes.") ]
  , .obj
      [ ("question", .str ("Which of the following is most important in Chapter " ++ toString chapter_id ++ "?"))
      , ("options", .arr
          [ .str "Understanding the basics"
          , .str "Memorizing facts"
          , .str "Speed reading"
          , .str "Taking notes" ])
      , ("correct_answer", .str "Understanding the basics")
      , ("explanation", .str "Understanding the basics is fundamental to learning any new concept.") ] ]

/-- The request issued by `create_test_mcqs`: one PUT carrying both test
records. -/
def create_test_mcqs_request (chapter_id : Int) (token : String) : Request :=
  mcqs_put_request chapter_id (test_mcqs chapter_id) token

/-- The response handling of `create_test_mcqs` inside `try:`: success only
on HTTP 200 with a truthy `succeeded`; every other path falls through to
the generic failure pair. -/
def create_test_mcqs_body (o : HttpOutcome) : Except String (Bool × String) :=
  match o with
  | .netError msg => .error msg
  | .response status body =>
    if status = 200 then
      match body with
      | .error e => .error e
      | .ok data =>
        match pyGetOpt data "succeeded" with
        | .error e => .error e
        | .ok s =>
          if truthy s then
            .ok (true, "Created 2 test MCQs successfully!")
          else
            .ok (false, "Failed to create test MCQs")
    else
      .ok (false, "Failed to create test MCQs")

/-- Function `create_test_mcqs` with its `except Exception` handler. -/
def create_test_mcqs (o : HttpOutcome) : Except String (Bool × String) :=
  match create_test_mcqs_body o with
  | .ok v => .ok v
  | .error e => .ok (false, "Error creating test MCQs: " ++ e)

/-- The `update_data` list built by `update_mcq` before its PUT: a singleton
record carrying the MCQ id first, then `question`, `options`,
`correct_answer` by subscription (each may raise `KeyError`), and
`explanation` via `.get` with default empty string. -/
def update_mcq_payload (mcq_id : JsonVal) (mcq_data : JsonVal) : Except String (List JsonVal) :=
  match pyIndex mcq_data "question" with
  | .error e => .error e
  | .ok q =>
    match pyIndex mcq_data "options" with
    | .error e => .error e
    | .ok opts =>
      match pyIndex mcq_data "correct_answer" with
      | .error e => .error e
      | .ok ca =>
        match pyGetD mcq_data "explanation" (.str "") with
        | .error e => .error e
        | .ok ex =>
          .ok [.obj
            [ ("id", mcq_id)
            , ("question", q)
            , ("options", opts)
            , ("correct_answer", ca)
            , ("explanation", ex) ]]

/-- The response handling of `update_mcq` inside `try:`: success only on
HTTP 200 with a truthy `succeeded`. -/
def update_mcq_response (o : HttpOutcome) : Except String (Bool × String) :=
  match o with
  | .netError msg => .error msg
  | .response status body =>
    if status = 200 then
      match body with
      | .error e => .error e
      | .ok data =>
        match pyGetOpt data "succeeded" with
        | .error e => .error e
        | .ok s =>
          if truthy s then
            .ok (true, "MCQ updated successfully!")
          else
            .ok (false, "Failed to update MCQ")
    else
      .ok (false, "Failed to update MCQ")

/-- Function `update_mcq` end to end: payload construction followed by the response
handling, wrapped in the `except Exception` handler of the source. -/
def update_mcq (mcq_id : JsonVal) (mcq_data : JsonVal) (o : HttpOutcome) :
    Except String (Bool × String) :=
  match
    (match update_mcq_payload mcq_id mcq_data with
     | .error e => (.error e : Except String (Bool × String))
     | .ok _ => update_mcq_response o) with
  | .ok v => .ok v
  | .error e => .ok (false, "Error updating MCQ: " ++ e)

/-- The session slice of `st.session_state` used by `main`. -/
structure SessionState where
  token : Option String
  username : Option String
  user_role : Option String

/-- The direct-token branch of `main`: when the token form is submitted with
a truthy (non-empty) token string, the session becomes the supplied token
with the fixed placeholder identity; no HTTP request is issued on this
path, which the second component records. -/
def direct_token_submit (s : SessionState) (token_submit : Bool) (direct_token : String) :
    SessionState × List Request :=
  if token_submit && direct_token != "" then
    ({ token := some direct_token
       username := some "Direct Access"
       user_role := some "Admin" }, [])
  else
    (s, [])

/-- The whitespace characters stripped by Python `str.strip()`, restricted
to the ASCII range. -/
def pyIsSpace (c : Char) : Bool :=
  c = ' ' || c = '\t' || c = '\n' || c = '\r' || c = '\x0b' || c = '\x0c'

/-- Python `line.strip()` on the character list of a string. -/
def pyStripL (l : List Char) : List Char :=
  List.rdropWhile pyIsSpace (List.dropWhile pyIsSpace l)

/-- Python `line.strip()`. -/
def pyStrip (s : String) : String :=
  String.mk (pyStripL s.toList)

/-- Python `text.split(chr(10))` on a character list: split on every newline,
keeping empty segments, so that the empty text yields one empty segment. -/
def splitOnNewline : List Char → List (List Char)
  | [] => [[]]
  | c :: rest =>
    if c = '\n' then
      [] :: splitOnNewline rest
    else
      match splitOnNewline rest with
      | [] => [[c]]
      | seg :: segs => (c :: seg) :: segs

/-- Function `text_to_list` from the source: split the text on newlines, keep the
lines whose stripped form is truthy (non-empty), and return those stripped
lines. -/
def text_to_list (text : String) : List String :=
  ((splitOnNewline text.toList).filter (fun line => pyStripL line != [])).map
    (fun line => String.mk (pyStripL line))

/-- The exact response shape on which `login_user` returns a token triple:
HTTP 200, a JSON object body, truthy `succeeded`, and a `data` object
carrying all three of `token`, `username`, `user_role`. -/
def loginFullSuccess : HttpOutcome → Bool
  | .response 200 (.ok (.obj fields)) =>
    truthy ((lookupField fields "succeeded").getD .null) &&
      (match lookupField fields "data" with
       | some (.obj ds) =>
         (lookupField ds "token").isSome &&
           (lookupField ds "username").isSome && (lookupField ds "user_role").isSome
       | _ => false)
  | _ => false

/-- The failure outcomes enumerated by the specification for a read call:
a transport error, a non-200 status, a body that does not parse as a JSON
object, or a falsy `succeeded`. -/
def readCallFails : HttpOutcome → Bool
  | .netError _ => true
  | .response status body =>
    status != 200 ||
      (match body with
       | .error _ => true
       | .ok (.obj fields) => !truthy ((lookupField fields "succeeded").getD .null)
       | .ok _ => true)

/-- The response shape on which `update_chapter` reports success: HTTP 200
or 201, a JSON object body, truthy `succeeded`, and a present `message`
key. -/
def updateChapterSuccessShape : HttpOutcome → Bool
  | .response status (.ok (.obj fields)) =>
    (status == 200 || status == 201) &&
      truthy ((lookupField fields "succeeded").getD .null) &&
      (lookupField fields "message").isSome
  | _ => false

/-- The response shape on which the MCQ write operations report success:
HTTP status exactly 200, a JSON object body, and truthy `succeeded`. -/
def mcqWriteSuccessShape : HttpOutcome → Bool
  | .netError _ => false
  | .response status body =>
    status == 200 &&
      (match body with
       | .ok (.obj fields) => truthy ((lookupField fields "succeeded").getD .null)
       | _ => false)

/-- A string with a non-empty prefix is non-empty. -/
theorem append_ne_empty_left (p m : String) (hp : p ≠ "") : p ++ m ≠ "" := by
  intro h
  apply hp
  have h2 := congrArg String.data h
  simp only [String.data_append] at h2
  rcases List.append_eq_nil.mp h2 with ⟨h1, _⟩
  exact String.ext h1

/-- C1: for every login call where the server responds with HTTP 200 and a
JSON object whose `succeeded` field is truthy and whose `data` object
carries `token`, `username` and `user_role`, `login_user` returns exactly
that token, username and role, with no error message emitted. -/
theorem login_extracts_token_username_role
    (fields ds : List (String × JsonVal)) (t u r : JsonVal)
    (hs : truthy ((lookupField fields "succeeded").getD .null) = true)
    (hd : lookupField fields "data" = some (.obj ds))
    (ht : lookupField ds "token" = some t)
    (hu : lookupField ds "username" = some u)
    (hr : lookupField ds "user_role" = some r) :
    login_user (.response 200 (.ok (.obj fields))) = .ok (some (t, u, r), []) := by
  simp [login_user, login_user_body, pyGetOpt, pyIndex, hs, hd, ht, hu, hr]

/-- C1 witness: the stub from the specification scenario. -/
theorem login_extracts_token_username_role_witness :
    login_user (.response 200 (.ok (.obj
      [ ("succeeded", .bool true)
      , ("data", .obj
          [ ("token", .str "T"), ("username", .str "A"), ("user_role", .str "Admin") ]) ]))) =
      .ok (some (.str "T", .str "A", .str "Admin"), []) :=
  login_extracts_token_username_role
    [ ("succeeded", .bool true)
    , ("data", .obj
        [ ("token", .str "T"), ("username", .str "A"), ("user_role", .str "Admin") ]) ]
    [ ("token", .str "T"), ("username", .str "A"), ("user_role", .str "Admin") ]
    (.str "T") (.str "A") (.str "Admin")
    rfl rfl rfl rfl rfl

/-- C5: no transport or parsing exception escapes any client operation: for
every server outcome and every MCQ input, each operation returns a plain
success-or-failure value on the `Except.ok` side of its raise channel. -/
theorem client_never_raises (o : HttpOutcome) (mcq_id mcq_data : JsonVal) :
    (login_user o).isOk = true ∧
    (get_all_chapters o).isOk = true ∧
    (get_chapter_details o).isOk = true ∧
    (update_chapter o).isOk = true ∧
    (get_mcqs_for_chapter o).isOk = true ∧
    (create_test_mcqs o).isOk = true ∧
    (update_mcq mcq_id mcq_data o).isOk = true := by
  refine ⟨?_, ?_, ?_, ?_, ?_, ?_, ?_⟩
  · cases h : login_user_body o <;> simp [login_user, h, Except.isOk, Except.toBool]
  · cases h : get_all_chapters_body o <;> simp [get_all_chapters, h, Except.isOk, Except.toBool]
  · cases h : get_chapter_details_body o <;>
      simp [get_chapter_details, h, Except.isOk, Except.toBool]
  · cases h : update_chapter_body o <;> simp [update_chapter, h, Except.isOk, Except.toBool]
  · cases h : get_mcqs_for_chapter_body o <;>
      simp [get_mcqs_for_chapter, h, Except.isOk, Except.toBool]
  · cases h : create_test_mcqs_body o <;> simp [create_test_mcqs, h, Except.isOk, Except.toBool]
  · cases hp : update_mcq_payload mcq_id mcq_data <;>
      cases hr : update_mcq_response o <;>
      simp [update_mcq, hp, hr, Except.isOk, Except.toBool]

/-- C2: for every login outcome other than HTTP 200 with a fully successful
JSON body, `login_user` returns the `None` triple together with exactly one
`st.error` message, and that reason string is non-empty; no exception
escapes. -/
theorem login_failure_uniform (o : HttpOutcome) (h : loginFullSuccess o = false) :
    ∃ e : String, login_user o = .ok (none, [e]) ∧ e ≠ "" := by
  cases o with
  | netError msg =>
    exact ⟨"Login error: " ++ msg, rfl, append_ne_empty_left _ _ (by decide)⟩
  | response status body =>
    by_cases hst : status = 200
    · subst hst
      cases body with
      | error e =>
        exact ⟨"Login error: " ++ e, rfl, append_ne_empty_left _ _ (by decide)⟩
      | ok data =>
        cases data with
        | null =>
          exact ⟨"Login error: " ++ ("AttributeError: object has no attribute get for key " ++
            "succeeded"), rfl, append_ne_empty_left _ _ (by decide)⟩
        | bool b =>
          exact ⟨"Login error: " ++ ("AttributeError: object has no attribute get for key " ++
            "succeeded"), rfl, append_ne_empty_left _ _ (by decide)⟩
        | num n =>
          exact ⟨"Login error: " ++ ("AttributeError: object has no attribute get for key " ++
            "succeeded"), rfl, append_ne_empty_left _ _ (by decide)⟩
        | str s =>
          exact ⟨"Login error: " ++ ("AttributeError: object has no attribute get for key " ++
            "succeeded"), rfl, append_ne_empty_left _ _ (by decide)⟩
        | arr xs =>
          exact ⟨"Login error: " ++ ("AttributeError: object has no attribute get for key " ++
            "succeeded"), rfl, append_ne_empty_left _ _ (by decide)⟩
        | obj fields =>
          cases hs : truthy ((lookupField fields "succeeded").getD .null) with
          | false =>
            refine ⟨"Login failed: " ++
              pyStr ((lookupField fields "message").getD (.str "Unknown error")), ?_,
              append_ne_empty_left _ _ (by decide)⟩
            simp [login_user, login_user_body, pyGetOpt, pyGetD, hs]
          | true =>
            simp only [loginFullSuccess, hs, Bool.true_and] at h
            cases hd : lookupField fields "data" with
            | none =>
              refine ⟨"Login error: " ++ ("KeyError: " ++ "data"), ?_,
                append_ne_empty_left _ _ (by decide)⟩
              simp [login_user, login_user_body, pyGetOpt, pyIndex, hs, hd]
            | some d =>
              rw [hd] at h
              cases d with
              | null =>
                refine ⟨"Login error: " ++ ("TypeError: value not subscriptable by key " ++
                  "token"), ?_, append_ne_empty_left _ _ (by decide)⟩
                simp [login_user, login_user_body, pyGetOpt, pyIndex, hs, hd]
              | bool b =>
                refine ⟨"Login error: " ++ ("TypeError: value not subscriptable by key " ++
                  "token"), ?_, append_ne_empty_left _ _ (by decide)⟩
                simp [login_user, login_user_body, pyGetOpt, pyIndex, hs, hd]
              | num n =>
                refine ⟨"Login error: " ++ ("TypeError: value not subscriptable by key " ++
                  "token"), ?_, append_ne_empty_left _ _ (by decide)⟩
                simp [login_user, login_user_body, pyGetOpt, pyIndex, hs, hd]
              | str s =>
                refine ⟨"Login error: " ++ ("TypeError: value not subscriptable by key " ++
                  "token"), ?_, append_ne_empty_left _ _ (by decide)⟩
                simp [login_user, login_user_body, pyGetOpt, pyIndex, hs, hd]
              | arr xs =>
                refine ⟨"Login error: " ++ ("TypeError: value not subscriptable by key " ++
                  "token"), ?_, append_ne_empty_left _ _ (by decide)⟩
                simp [login_user, login_user_body, pyGetOpt, pyIndex, hs, hd]
              | obj ds =>
                cases ht : lookupField ds "token" with
                | none =>
                  refine ⟨"Login error: " ++ ("KeyError: " ++ "token"), ?_,
                    append_ne_empty_left _ _ (by decide)⟩
                  simp [login_user, login_user_body, pyGetOpt, pyIndex, hs, hd, ht]
                | some t =>
                  cases hu : lookupField ds "username" with
                  | none =>
                    refine ⟨"Login error: " ++ ("KeyError: " ++ "username"), ?_,
                      append_ne_empty_left _ _ (by decide)⟩
                    simp [login_user, login_user_body, pyGetOpt, pyIndex, hs, hd, ht, hu]
                  | some u =>
                    cases hr : lookupField ds "user_role" with
                    | none =>
                      refine ⟨"Login error: " ++ ("KeyError: " ++ "user_role"), ?_,
                        append_ne_empty_left _ _ (by decide)⟩
                      simp [login_user, login_user_body, pyGetOpt, pyIndex, hs, hd, ht, hu, hr]
                    | some r =>
                      simp [ht, hu, hr] at h
    · refine ⟨"Login failed with status " ++ toString status, ?_,
        append_ne_empty_left _ _ (by decide)⟩
      simp [login_user, login_user_body, hst]

/-- C2 witness: a stub server answering HTTP 401 with a JSON body yields the
failure triple with the non-empty status message. -/
theorem login_failure_uniform_witness :
    ∃ e : String,
      login_user (.response 401 (.ok (.obj [("succeeded", .bool false)]))) = .ok (none, [e]) ∧
        e ≠ "" :=
  login_failure_uniform (.response 401 (.ok (.obj [("succeeded", .bool false)]))) rfl

/-- Function `update_chapter` always returns, and its success flag is exactly
`updateChapterSuccessShape`. -/
theorem update_chapter_characterization (o : HttpOutcome) :
    ∃ m, update_chapter o = .ok (updateChapterSuccessShape o, m) := by
  cases o with
  | netError msg => exact ⟨_, rfl⟩
  | response status body =>
    by_cases hst : status = 200 ∨ status = 201
    · have hbeq : (status == 200 || status == 201) = true := by
        rcases hst with h | h <;> subst h <;> rfl
      cases body with
      | error e =>
        refine ⟨.str ("Error: " ++ e), ?_⟩
        simp [update_chapter, update_chapter_body, updateChapterSuccessShape, hst]
      | ok data =>
        cases data with
        | null =>
          refine ⟨.str ("Error: " ++ ("AttributeError: object has no attribute get for key " ++
            "succeeded")), ?_⟩
          simp [update_chapter, update_chapter_body, updateChapterSuccessShape, pyGetOpt, hst]
        | bool b =>
          refine ⟨.str ("Error: " ++ ("AttributeError: object has no attribute get for key " ++
            "succeeded")), ?_⟩
          simp [update_chapter, update_chapter_body, updateChapterSuccessShape, pyGetOpt, hst]
        | num n =>
          refine ⟨.str ("Error: " ++ ("AttributeError: object has no attribute get for key " ++
            "succeeded")), ?_⟩
          simp [update_chapter, update_chapter_body, updateChapterSuccessShape, pyGetOpt, hst]
        | str s =>
          refine ⟨.str ("Error: " ++ ("AttributeError: object has no attribute get for key " ++
            "succeeded")), ?_⟩
          simp [update_chapter, update_chapter_body, updateChapterSuccessShape, pyGetOpt, hst]
        | arr xs =>
          refine ⟨.str ("Error: " ++ ("AttributeError: object has no attribute get for key " ++
            "succeeded")), ?_⟩
          simp [update_chapter, update_chapter_body, updateChapterSuccessShape, pyGetOpt, hst]
        | obj fields =>
          cases hs : truthy ((lookupField fields "succeeded").getD .null) with
          | false =>
            refine ⟨.str "Update failed", ?_⟩
            simp [update_chapter, update_chapter_body, updateChapterSuccessShape, pyGetOpt,
              hst, hs, hbeq]
          | true =>
            cases hm : lookupField fields "message" with
            | none =>
              refine ⟨.str ("Error: " ++ ("KeyError: " ++ "message")), ?_⟩
              simp [update_chapter, update_chapter_body, updateChapterSuccessShape, pyGetOpt,
                pyIndex, hst, hs, hm, hbeq]
            | some m =>
              refine ⟨m, ?_⟩
              simp [update_chapter, update_chapter_body, updateChapterSuccessShape, pyGetOpt,
                pyIndex, hst, hs, hm, hbeq]
    · have h1 : status ≠ 200 := fun h => hst (Or.inl h)
      have h2 : status ≠ 201 := fun h => hst (Or.inr h)
      refine ⟨.str "Update failed", ?_⟩
      cases body with
      | error e =>
        simp [update_chapter, update_chapter_body, updateChapterSuccessShape, hst]
      | ok data =>
        cases data with
        | null => simp [update_chapter, update_chapter_body, updateChapterSuccessShape, hst]
        | bool b => simp [update_chapter, update_chapter_body, updateChapterSuccessShape, hst]
        | num n => simp [update_chapter, update_chapter_body, updateChapterSuccessShape, hst]
        | str s => simp [update_chapter, update_chapter_body, updateChapterSuccessShape, hst]
        | arr xs => simp [update_chapter, update_chapter_body, updateChapterSuccessShape, hst]
        | obj fields =>
          simp [update_chapter, update_chapter_body, updateChapterSuccessShape, hst,
            beq_iff_eq, h1, h2]

/-- C3 counterexample: a response with HTTP 200 and `succeeded` true whose
body carries no `message` key is reported as a failure by `update_chapter`,
so success is not equivalent to HTTP 200/201 with `succeeded` true alone. -/
theorem update_chapter_claim_counterexample :
    truthy ((lookupField [("succeeded", JsonVal.bool true)] "succeeded").getD .null) = true ∧
      update_chapter (.response 200 (.ok (.obj [("succeeded", .bool true)]))) =
        .ok (false, .str ("Error: " ++ ("KeyError: " ++ "message"))) :=
  ⟨rfl, rfl⟩

/-- C3 amended: the chapter upsert reports success exactly when the server
responds with HTTP 200 or 201, a JSON object body with truthy `succeeded`,
and a present `message` key; every other outcome is reported as a failure
pair with a generic or server-derived message, never as an exception. -/
theorem update_chapter_success_iff (o : HttpOutcome) :
    ((∃ m, update_chapter o = .ok (true, m)) ↔ updateChapterSuccessShape o = true) ∧
    (updateChapterSuccessShape o = false → ∃ m, update_chapter o = .ok (false, m)) := by
  obtain ⟨m, hm⟩ := update_chapter_characterization o
  refine ⟨⟨?_, ?_⟩, ?_⟩
  · rintro ⟨m2, hm2⟩
    have h3 : ((updateChapterSuccessShape o, m) : Bool × JsonVal) = (true, m2) := by
      have := hm.symm.trans hm2
      injection this
    simpa using congrArg Prod.fst h3
  · intro hshape
    exact ⟨m, by rw [hm, hshape]⟩
  · intro hshape
    exact ⟨m, by rw [hm, hshape]⟩

/-- C3 witness: HTTP 201 with a successful envelope carrying a message is
reported as success. -/
theorem update_chapter_success_iff_witness :
    ∃ m, update_chapter (.response 201 (.ok (.obj
      [("succeeded", .bool true), ("message", .str "Chapter updated")]))) = .ok (true, m) :=
  (update_chapter_success_iff _).1.mpr rfl

/-- C4: `get_all_chapters` returns the empty list both when the server
successfully returns an empty `data` list and when the call fails in any of
the ways the specification enumerates (transport error, non-200 status,
non-object body, falsy `succeeded`); an empty list from the server is not a
failure. -/
theorem get_all_chapters_empty_on_empty_or_failure (o : HttpOutcome) :
    (∀ fields, o = .response 200 (.ok (.obj fields)) →
      truthy ((lookupField fields "succeeded").getD .null) = true →
      lookupField fields "data" = some (.arr []) →
      get_all_chapters o = .ok (.arr [], [])) ∧
    (readCallFails o = true → ∃ errs, get_all_chapters o = .ok (.arr [], errs)) := by
  constructor
  · intro fields ho hs hd
    subst ho
    simp [get_all_chapters, get_all_chapters_body, pyGetOpt, pyIndex, hs, hd]
  · intro hf
    cases o with
    | netError msg => exact ⟨_, rfl⟩
    | response status body =>
      by_cases hst : status = 200
      · subst hst
        cases body with
        | error e => exact ⟨_, rfl⟩
        | ok data =>
          cases data with
          | null => exact ⟨_, rfl⟩
          | bool b => exact ⟨_, rfl⟩
          | num n => exact ⟨_, rfl⟩
          | str s => exact ⟨_, rfl⟩
          | arr xs => exact ⟨_, rfl⟩
          | obj fields =>
            simp only [readCallFails] at hf
            simp at hf
            refine ⟨[], ?_⟩
            simp [get_all_chapters, get_all_chapters_body, pyGetOpt, hf]
      · refine ⟨[], ?_⟩
        simp [get_all_chapters, get_all_chapters_body, hst]

/-- C4 witness: a successful response whose `data` is the empty list yields
the empty list with no error message. -/
theorem get_all_chapters_empty_witness :
    get_all_chapters (.response 200 (.ok (.obj
      [("succeeded", .bool true), ("data", .arr [])]))) = .ok (.arr [], []) :=
  (get_all_chapters_empty_on_empty_or_failure _).1 _ rfl rfl rfl

/-- Function `create_test_mcqs` always returns, and its success flag is exactly
`mcqWriteSuccessShape`. -/
theorem create_test_mcqs_characterization (o : HttpOutcome) :
    ∃ m, create_test_mcqs o = .ok (mcqWriteSuccessShape o, m) := by
  cases o with
  | netError msg => exact ⟨_, rfl⟩
  | response status body =>
    by_cases hst : status = 200
    · subst hst
      cases body with
      | error e => exact ⟨_, rfl⟩
      | ok data =>
        cases data with
        | null => exact ⟨_, rfl⟩
        | bool b => exact ⟨_, rfl⟩
        | num n => exact ⟨_, rfl⟩
        | str s => exact ⟨_, rfl⟩
        | arr xs => exact ⟨_, rfl⟩
        | obj fields =>
          cases hs : truthy ((lookupField fields "succeeded").getD .null) with
          | false =>
            refine ⟨"Failed to create test MCQs", ?_⟩
            simp [create_test_mcqs, create_test_mcqs_body, mcqWriteSuccessShape, pyGetOpt, hs]
          | true =>
            refine ⟨"Created 2 test MCQs successfully!", ?_⟩
            simp [create_test_mcqs, create_test_mcqs_body, mcqWriteSuccessShape, pyGetOpt, hs]
    · have hb : (status == 200) = false := by simp [hst]
      refine ⟨"Failed to create test MCQs", ?_⟩
      simp [create_test_mcqs, create_test_mcqs_body, mcqWriteSuccessShape, hst, hb]

/-- When the payload construction of `update_mcq` succeeds, `update_mcq`
always returns, and its success flag is exactly `mcqWriteSuccessShape`. -/
theorem update_mcq_characterization (mcq_id mcq_data : JsonVal) (payload : List JsonVal)
    (hp : update_mcq_payload mcq_id mcq_data = .ok payload) (o : HttpOutcome) :
    ∃ m, update_mcq mcq_id mcq_data o = .ok (mcqWriteSuccessShape o, m) := by
  cases o with
  | netError msg =>
    refine ⟨"Error updating MCQ: " ++ msg, ?_⟩
    simp [update_mcq, update_mcq_response, mcqWriteSuccessShape, hp]
  | response status body =>
    by_cases hst : status = 200
    · subst hst
      cases body with
      | error e =>
        refine ⟨"Error updating MCQ: " ++ e, ?_⟩
        simp [update_mcq, update_mcq_response, mcqWriteSuccessShape, hp]
      | ok data =>
        cases data with
        | obj fields =>
          cases hs : truthy ((lookupField fields "succeeded").getD .null) with
          | false =>
            refine ⟨"Failed to update MCQ", ?_⟩
            simp [update_mcq, update_mcq_response, mcqWriteSuccessShape, pyGetOpt, hp, hs]
          | true =>
            refine ⟨"MCQ updated successfully!", ?_⟩
            simp [update_mcq, update_mcq_response, mcqWriteSuccessShape, pyGetOpt, hp, hs]
        | null =>
          refine ⟨"Error updating MCQ: " ++ ("AttributeError: object has no attribute get for key " ++ "succeeded"), ?_⟩
          simp [update_mcq, update_mcq_response, mcqWriteSuccessShape, pyGetOpt, hp]
        | bool b =>
          refine ⟨"Error updating MCQ: " ++ ("AttributeError: object has no attribute get for key " ++ "succeeded"), ?_⟩
          simp [update_mcq, update_mcq_response, mcqWriteSuccessShape, pyGetOpt, hp]
        | num n =>
          refine ⟨"Error updating MCQ: " ++ ("AttributeError: object has no attribute get for key " ++ "succeeded"), ?_⟩
          simp [update_mcq, update_mcq_response, mcqWriteSuccessShape, pyGetOpt, hp]
        | str s =>
          refine ⟨"Error updating MCQ: " ++ ("AttributeError: object has no attribute get for key " ++ "succeeded"), ?_⟩
          simp [update_mcq, update_mcq_response, mcqWriteSuccessShape, pyGetOpt, hp]
        | arr xs =>
          refine ⟨"Error updating MCQ: " ++ ("AttributeError: object has no attribute get for key " ++ "succeeded"), ?_⟩
          simp [update_mcq, update_mcq_response, mcqWriteSuccessShape, pyGetOpt, hp]
    · have hb : (status == 200) = false := by simp [hst]
      refine ⟨"Failed to update MCQ", ?_⟩
      simp [update_mcq, update_mcq_response, mcqWriteSuccessShape, hst, hb, hp]

/-- C10: both MCQ write operations report success only on HTTP status
exactly 200 with truthy `succeeded` (for the bulk create this is an exact
characterization), and in particular every HTTP 201 response is reported as
a failure by both, unlike the chapter upsert. -/
theorem mcq_writes_require_status_200 (o : HttpOutcome) (mcq_id mcq_data : JsonVal) :
    ((∃ m, create_test_mcqs o = .ok (true, m)) ↔ mcqWriteSuccessShape o = true) ∧
    ((∃ m, update_mcq mcq_id mcq_data o = .ok (true, m)) → mcqWriteSuccessShape o = true) ∧
    (∀ body, (∃ m, create_test_mcqs (.response 201 body) = .ok (false, m)) ∧
      (∃ m, update_mcq mcq_id mcq_data (.response 201 body) = .ok (false, m))) := by
  have hshape201 : ∀ body : Except String JsonVal,
      mcqWriteSuccessShape (.response 201 body) = false := fun _ => rfl
  obtain ⟨mc, hmc⟩ := create_test_mcqs_characterization o
  refine ⟨⟨?_, ?_⟩, ?_, ?_⟩
  · rintro ⟨m2, hm2⟩
    have h3 : ((mcqWriteSuccessShape o, mc) : Bool × String) = (true, m2) := by
      have := hmc.symm.trans hm2
      injection this
    simpa using congrArg Prod.fst h3
  · intro hshape
    exact ⟨mc, by rw [hmc, hshape]⟩
  · rintro ⟨m2, hm2⟩
    cases hp : update_mcq_payload mcq_id mcq_data with
    | error e =>
      simp [update_mcq, hp] at hm2
    | ok payload =>
      obtain ⟨m, hm⟩ := update_mcq_characterization mcq_id mcq_data payload hp o
      have h3 : ((mcqWriteSuccessShape o, m) : Bool × String) = (true, m2) := by
        have := hm.symm.trans hm2
        injection this
      simpa using congrArg Prod.fst h3
  · intro body
    constructor
    · obtain ⟨m, hm⟩ := create_test_mcqs_characterization (.response 201 body)
      rw [hshape201 body] at hm
      exact ⟨m, hm⟩
    · cases hp : update_mcq_payload mcq_id mcq_data with
      | error e =>
        refine ⟨"Error updating MCQ: " ++ e, ?_⟩
        simp [update_mcq, hp]
      | ok payload =>
        obtain ⟨m, hm⟩ := update_mcq_characterization mcq_id mcq_data payload hp
          (.response 201 body)
        rw [hshape201 body] at hm
        exact ⟨m, hm⟩

/-- C10 witness: an HTTP 201 response with a successful envelope is still
reported as a failure by the bulk MCQ create. -/
theorem mcq_writes_require_status_200_witness :
    ∃ m, create_test_mcqs (.response 201 (.ok (.obj [("succeeded", .bool true)]))) =
      .ok (false, m) :=
  ((mcq_writes_require_status_200 (.response 201 (.ok (.obj [("succeeded", .bool true)])))
    .null .null).2.2 (.ok (.obj [("succeeded", .bool true)]))).1

/-- C6 counterexample: the login call carries the fixed 10 second timeout
but the list-chapters call is issued with no timeout argument, so not every
network call is bounded by the login timeout. -/
theorem request_timeout_counterexample :
    (login_request "a@b.com" "pw").timeout = some 10 ∧
      (all_chapters_request "t").timeout = none :=
  ⟨rfl, rfl⟩

/-- C6 amended: only the login request carries a timeout (10 seconds); the
list-chapters, get-chapter, upsert-chapter, list-mcqs and upsert-mcqs
requests are issued without any timeout argument.  A raised timeout
exception still resolves each operation to a failure result rather than an
escaping exception. -/
theorem request_timeouts (email password token : String) (chapter_id : Int)
    (chapter_data : JsonVal) (records : List JsonVal) (msg : String) :
    (login_request email password).timeout = some 10 ∧
    (all_chapters_request token).timeout = none ∧
    (chapter_details_request chapter_id token).timeout = none ∧
    (update_chapter_request chapter_id chapter_data token).timeout = none ∧
    (mcqs_get_request chapter_id token).timeout = none ∧
    (mcqs_put_request chapter_id records token).timeout = none ∧
    login_user (.netError msg) = .ok (none, ["Login error: " ++ msg]) ∧
    get_all_chapters (.netError msg) = .ok (.arr [], ["Error fetching chapters: " ++ msg]) ∧
    update_chapter (.netError msg) = .ok (false, .str ("Error: " ++ msg)) :=
  ⟨rfl, rfl, rfl, rfl, rfl, rfl, rfl, rfl, rfl⟩

/-- C7: submitting the direct-token form with a non-empty token constructs
the session from that raw token with the fixed placeholder identity
username `Direct Access` and role `Admin`, and this path issues no HTTP
request, in particular no call to the login endpoint. -/
theorem direct_token_session (s : SessionState) (t : String) (h : t ≠ "") :
    direct_token_submit s true t =
      ({ token := some t, username := some "Direct Access", user_role := some "Admin" }, []) := by
  have hb : (t != "") = true := by simp [h]
  simp [direct_token_submit, hb]

/-- C7 witness: a concrete raw token. -/
theorem direct_token_session_witness :
    direct_token_submit ⟨none, none, none⟩ true "jwt-token" =
      ({ token := some "jwt-token", username := some "Direct Access",
         user_role := some "Admin" }, []) :=
  direct_token_session ⟨none, none, none⟩ "jwt-token" (by decide)

/-- C8: every MCQ upsert is one PUT request whose JSON body is exactly the
input sequence of records in input order; the bulk create sends its two
fixed records, neither carrying an `id` key, through this shape, and the
single update sends one record whose `id` field is the supplied MCQ id. -/
theorem mcqs_put_preserves_order (chapter_id : Int) (records : List JsonVal) (token : String) :
    (mcqs_put_request chapter_id records token).method = "PUT" ∧
    (mcqs_put_request chapter_id records token).jsonBody = some (.arr records) ∧
    create_test_mcqs_request chapter_id token =
      mcqs_put_request chapter_id (test_mcqs chapter_id) token ∧
    (test_mcqs chapter_id).length = 2 ∧
    (∀ r ∈ test_mcqs chapter_id, ∀ fs, r = .obj fs → lookupField fs "id" = none) ∧
    (∀ mcq_id mcq_data payload, update_mcq_payload mcq_id mcq_data = .ok payload →
      ∃ rec, payload = [rec] ∧ pyGetOpt rec "id" = .ok mcq_id) := by
  refine ⟨rfl, rfl, rfl, rfl, ?_, ?_⟩
  · intro r hr fs hfs
    simp only [test_mcqs, List.mem_cons, List.not_mem_nil, or_false] at hr
    rcases hr with h | h <;> subst h <;> injection hfs with hfs2 <;> subst hfs2 <;> rfl
  · intro mcq_id mcq_data payload hp
    cases hq : pyIndex mcq_data "question" with
    | error e => simp [update_mcq_payload, hq] at hp
    | ok q =>
      cases ho : pyIndex mcq_data "options" with
      | error e => simp [update_mcq_payload, hq, ho] at hp
      | ok opts =>
        cases hc : pyIndex mcq_data "correct_answer" with
        | error e => simp [update_mcq_payload, hq, ho, hc] at hp
        | ok ca =>
          cases he : pyGetD mcq_data "explanation" (.str "") with
          | error e => simp [update_mcq_payload, hq, ho, hc, he] at hp
          | ok ex =>
            simp only [update_mcq_payload, hq, ho, hc, he] at hp
            injection hp with hp2
            exact ⟨.obj [("id", mcq_id), ("question", q), ("options", opts),
              ("correct_answer", ca), ("explanation", ex)], hp2.symm, rfl⟩

/-- C8 witness: a record with a concrete id yields a singleton PUT body
carrying that id. -/
theorem mcqs_put_preserves_order_witness :
    ∃ rec,
      ([.obj [("id", .num 7), ("question", .str "q"),
        ("options", .arr [.str "a", .str "b"]), ("correct_answer", .str "a"),
        ("explanation", .str "")]] : List JsonVal) = [rec] ∧
        pyGetOpt rec "id" = .ok (.num 7) :=
  (mcqs_put_preserves_order 3 [] "tok").2.2.2.2.2 (.num 7)
    (.obj [("question", .str "q"), ("options", .arr [.str "a", .str "b"]),
      ("correct_answer", .str "a")])
    [.obj [("id", .num 7), ("question", .str "q"),
      ("options", .arr [.str "a", .str "b"]), ("correct_answer", .str "a"),
      ("explanation", .str "")]]
    rfl

/-- A list unchanged by `dropWhile` has a head that fails the predicate. -/
theorem dropWhile_cons_self_head {α : Type} {p : α → Bool} {a : α} {l : List α}
    (h : List.dropWhile p (a :: l) = a :: l) : p a = false := by
  by_cases hpa : p a = true
  · rw [List.dropWhile_cons, if_pos hpa] at h
    have hle := (List.dropWhile_sublist (l := l) p).length_le
    rw [h] at hle
    simp at hle
  · simpa using hpa

/-- Stripping a stripped character list changes nothing. -/
theorem pyStripL_idempotent (l : List Char) : pyStripL (pyStripL l) = pyStripL l := by
  unfold pyStripL
  have hmm : List.dropWhile pyIsSpace (List.dropWhile pyIsSpace l) =
      List.dropWhile pyIsSpace l := List.dropWhile_idempotent pyIsSpace l
  have h1 : List.dropWhile pyIsSpace
      (List.rdropWhile pyIsSpace (List.dropWhile pyIsSpace l)) =
      List.rdropWhile pyIsSpace (List.dropWhile pyIsSpace l) := by
    obtain ⟨t, ht⟩ := List.rdropWhile_prefix pyIsSpace (List.dropWhile pyIsSpace l)
    cases hc : List.rdropWhile pyIsSpace (List.dropWhile pyIsSpace l) with
    | nil => rfl
    | cons a rest =>
      rw [hc] at ht
      rw [← ht] at hmm
      have hpa : pyIsSpace a = false := by
        apply dropWhile_cons_self_head (l := rest ++ t)
        simpa using hmm
      rw [List.dropWhile_cons, hpa]
      simp
  rw [h1, List.rdropWhile_idempotent]

/-- C9: every string produced by `text_to_list` is a stripped line of the
newline-split input: it is non-empty, it is unchanged by a further strip
(so it carries no leading or trailing whitespace), and it arises as the
strip of one of the split lines. -/
theorem text_to_list_strips (text : String) (s : String) (h : s ∈ text_to_list text) :
    s ≠ "" ∧ pyStrip s = s ∧
      ∃ line ∈ splitOnNewline text.toList, s = String.mk (pyStripL line) := by
  simp only [text_to_list, List.mem_map, List.mem_filter] at h
  obtain ⟨line, ⟨hmem, hne⟩, hs⟩ := h
  simp only [bne_iff_ne, ne_eq] at hne
  subst hs
  refine ⟨?_, ?_, line, hmem, rfl⟩
  · intro h0
    exact hne (congrArg String.data h0)
  · show String.mk (pyStripL (String.mk (pyStripL line)).toList) = String.mk (pyStripL line)
    exact congrArg String.mk (pyStripL_idempotent line)

/-- C9 witness: the text with two padded lines yields the stripped line. -/
theorem text_to_list_strips_witness :
    "a" ≠ "" ∧ pyStrip "a" = "a" ∧
      ∃ line ∈ splitOnNewline "  a \n b".toList, "a" = String.mk (pyStripL line) :=
  text_to_list_strips "  a \n b" "a" (by decide)

end Syllabus
